import Mathlib

/-!
# Verification of StyleAnimation.js

A shallow embedding of the StyleAnimation library (the later of the two
revisions contained in the source file, which is the one that introduces
`afterEach`/`afterAll`, `defaultDuration` and the unit-guarded setter).

Modelling conventions:
* JavaScript numbers are modelled as exact rationals; the claims exercised
  here involve only small values on which IEEE doubles compute exactly.
* DOM elements are modelled by an identifier plus a computed-style query
  function; style writes and frame scheduling are recorded as explicit
  per-frame effects.
* Fallible JavaScript evaluation (TypeError on dereferencing null/undefined
  or calling a non-callable) is modelled with Option at the granularity of
  one `animate` frame.
-/

namespace StyleAnimation

/-- The numeric accessor's property object, `{value, unit}` as produced by
`accessors.numeric.get`.  `value` is a JavaScript number (exact rational
here); `unit` is the optional unit suffix string (null when absent). -/
structure PropValue where
  value : Rat
  unit : Option String
deriving DecidableEq, Repr

/-! ## The numeric accessor's `get` (parse)

`get` runs the regular expression `([.0-9+-]+)([^.0-9+-]+)?` over the raw
string and, on a match, coerces the first capture with `matches[1] >>> 0`
(ECMAScript ToUint32 of ToNumber) and takes `matches[2] || null` as unit. -/

/-- Character class `[.0-9+-]` of the source regex. -/
def numClass (c : Char) : Bool :=
  c = '.' || c = '+' || c = '-' || c.isDigit

/-- The match of `/([.0-9+-]+)([^.0-9+-]+)?/` on a character list: find the
leftmost position where group 1 (a maximal nonempty run of class characters)
matches, then group 2 is the following maximal run of non-class characters
(the empty list standing for an absent group).  Greedy matching with an
optional trailing group needs no backtracking, so the maximal runs are exact. -/
def execNumeric : List Char → Option (List Char × List Char)
  | [] => none
  | c :: rest =>
    if numClass c then
      let g1 := (c :: rest).takeWhile numClass
      let after := (c :: rest).drop g1.length
      some (g1, after.takeWhile (fun d => !numClass d))
    else
      execNumeric rest

/-- Value of a digit run, most significant first. -/
def digitsVal (ds : List Char) : Nat :=
  ds.foldl (fun a c => 10 * a + (c.toNat - 48)) 0

/-- ECMAScript ToNumber of an unsigned decimal literal over the alphabet
`[.0-9+-]` (no exponent or hex is expressible in that alphabet):
`digits ['.' digits?]` or `'.' digits`; anything else is NaN (`none`).
The value of `a.b` is rendered as the exact fraction (a·10^k + b) / 10^k. -/
def strToNumBody (cs : List Char) : Option Rat :=
  let ds1 := cs.takeWhile Char.isDigit
  let rest1 := cs.drop ds1.length
  match rest1 with
  | [] => if ds1.isEmpty then none else some (digitsVal ds1 : Rat)
  | '.' :: rest2 =>
    let ds2 := rest2.takeWhile Char.isDigit
    let rest3 := rest2.drop ds2.length
    if rest3.isEmpty && !(ds1.isEmpty && ds2.isEmpty) then
      some (Rat.divInt (digitsVal ds1 * 10 ^ ds2.length + digitsVal ds2) (10 ^ ds2.length))
    else
      none
  | _ => none

/-- ECMAScript ToNumber of the captured numeric substring: an optional single
sign followed by an unsigned decimal literal; `none` is NaN. -/
def jsToNumber : List Char → Option Rat
  | '+' :: t => strToNumBody t
  | '-' :: t => (strToNumBody t).map (fun q => -q)
  | cs => strToNumBody cs

/-- Truncation toward zero, as ECMAScript does on the way into ToUint32. -/
def jsTrunc (q : Rat) : Int :=
  if 0 ≤ q then ⌊q⌋ else -⌊-q⌋

/-- ECMAScript `x >>> 0` applied to a ToNumber result: NaN goes to 0,
otherwise truncate toward zero and reduce modulo 2^32. -/
def toUint32 : Option Rat → Nat
  | none => 0
  | some q => (jsTrunc q % (2 ^ 32 : Int)).toNat

/-- `StyleAnimation.accessors.numeric.get`: regex match, `matches[1] >>> 0`
as value, `matches[2] || null` as unit; `null` when the regex does not match. -/
def Numeric.get (raw : String) : Option PropValue :=
  (execNumeric raw.data).map (fun m =>
    { value := (toUint32 (jsToNumber m.1) : Rat)
      unit := if m.2.isEmpty then none else some (String.mk m.2) })

/-! ## The numeric accessor's `update` (interpolate) and `set` (apply) -/

/-- `StyleAnimation.accessors.numeric.update`: linear interpolation; the unit
is carried from `start`. -/
def Numeric.update (start target : PropValue) (progress : Rat) : PropValue :=
  { value := start.value + (target.value - start.value) * progress
    unit := start.unit }

/-- Rendering of a JavaScript number into the written style string.  The
ECMAScript double-to-string algorithm is abstracted to a canonical exact
rendering of the rational; no claim depends on the numeral format. -/
def jsNumStr (q : Rat) : String :=
  toString q

/-- The raw string written by `accessors.numeric.set`:
`current.value + (start.unit || '')`. -/
def Numeric.setStr (start current : PropValue) : String :=
  jsNumStr current.value ++ (start.unit.getD "")

/-- A DOM element from the setter's point of view: its inline style store. -/
structure DomElem where
  style : String → String

/-- `StyleAnimation.accessors.numeric.set`:
`node.style[name] = current.value + (start.unit || '')`. -/
def Numeric.set (node : DomElem) (name : String) (start current : PropValue) :
    DomElem :=
  { style := fun n => if n = name then Numeric.setStr start current else node.style n }

/-! ## JavaScript values, the dynamics table, and easing resolution

The `easing` constructor argument may be absent, a function, or a string
name.  The constructor computes
`(easing && (toString.call(easing) === '[object Function]' || dynamics[easing])) || dynamics.linear`
and stores the resulting JavaScript value in `this.easing`. -/

/-- The JavaScript values that can flow through the easing resolution
expression and the `this.easing` slot. -/
inductive JsV where
  | undefined : JsV
  | bool : Bool → JsV
  | str : String → JsV
  | fn : (Rat → Rat) → JsV

/-- JavaScript truthiness of the values above. -/
def JsV.truthy : JsV → Bool
  | .undefined => false
  | .bool b => b
  | .str s => !s.isEmpty
  | .fn _ => true

/-- JavaScript `a && b`: `a` when falsy, else `b`. -/
def jsAnd (a b : JsV) : JsV :=
  if a.truthy then b else a

/-- JavaScript `a || b`: `a` when truthy, else `b`. -/
def jsOr (a b : JsV) : JsV :=
  if a.truthy then a else b

/-- `Object.prototype.toString.call(x) === '[object Function]'` as a
JavaScript boolean. -/
def isFunctionCheck : JsV → JsV
  | .fn _ => .bool true
  | _ => .bool false

/-- Coercion of a value to a property key for the `dynamics[easing]` lookup.
A function coerces to its source text; the placeholder "function" stands for
that text, which is never one of the table's keys. -/
def JsV.toKey : JsV → String
  | .str s => s
  | .undefined => "undefined"
  | .bool b => toString b
  | .fn _ => "function"

/-- `StyleAnimation.dynamics.linear`, the identity easing. -/
def linearFn : Rat → Rat := fun x => x

/-- The source's `dynamics.logarithmic` computes `Math.log(x*100) / Math.log(100)`
with the host's floating-point `Math.log`, a host math primitive that has no
exact counterpart in this rational number model.  What the claims exercise is
only this entry's presence under the key "logarithmic" (a name resolves to
the stored function exactly when its key is registered); the graph below is a
stand-in that no theorem evaluates. -/
def logarithmicDyn : Rat → Rat := fun x => x / 2

/-- The `StyleAnimation.dynamics` table with its two built-in entries;
`undefined` for any other key. -/
def dynamics (key : String) : JsV :=
  if key = "linear" then .fn linearFn
  else if key = "logarithmic" then .fn logarithmicDyn
  else .undefined

/-- The easing resolution expression of the Animation constructor. -/
def resolveEasing (easing : JsV) : JsV :=
  jsOr (jsAnd easing (jsOr (isFunctionCheck easing) (dynamics easing.toKey)))
    (.fn linearFn)

/-! ## The Animation object -/

/-- One entry of an element's internal property representation, as built by
`StyleAnimation.parsePropertyMap`: property name plus parsed start and target
(null on parse failure).  The accessor is always the numeric accessor, since
the `StyleAnimation.properties` table ships empty. -/
structure Snapshot where
  name : String
  start : Option PropValue
  target : Option PropValue
deriving DecidableEq, Repr

/-- A DOM element from the Animation constructor's point of view: an identity
plus the host's computed-style query for it. -/
structure DomNode where
  id : Nat
  computed : String → String

/-- One entry of `this.elements`: the node and its property snapshots. -/
structure ElementB where
  node : Nat
  properties : List Snapshot
deriving DecidableEq, Repr

/-- One `accessor.set` call observed during a frame. -/
structure StyleWrite where
  node : Nat
  name : String
  raw : String
deriving DecidableEq, Repr

/-- The externally visible effects of one `animate` frame. -/
structure FrameEffects where
  writes : List StyleWrite
  rescheduled : Bool
  callbackCalls : Nat
deriving DecidableEq, Repr

/-- A frame with no effects at all. -/
def noEffects : FrameEffects := ⟨[], false, 0⟩

/-- The Animation object's state.  `callback` mirrors the `this.callback`
slot that `animate` reads in its terminal branch; the constructor never
assigns it (it stores the callback argument in `afterEach`/`afterAll`), so
reading it yields `undefined` (`none`).  `startTime` holds 0 as a stand-in
for `undefined` until `start()` assigns it; every run considered below calls
`start()` first.  `propertyCount` holds 0 as a stand-in for `undefined` when
there are no elements (the constructor's per-element loop, which assigns it,
never runs); a loop bounded by `undefined` performs zero iterations, which
the 0 reproduces. -/
structure AnimState where
  elements : List ElementB
  count : Nat
  propertyCount : Nat
  duration : Rat
  easing : JsV
  afterEach : Option Unit
  afterAll : Option Unit
  callback : Option Unit
  cancel : Bool
  startTime : Rat

/-- The `callback` constructor argument: absent, a bare function, or an
object carrying optional `afterEach`/`afterAll` members (presence of a
truthy member is what matters to the claims). -/
inductive CallbackArg where
  | undefined : CallbackArg
  | fn : CallbackArg
  | obj : Option Unit → Option Unit → CallbackArg

/-- `this.afterEach = callback ? (callback.afterEach || false) : false`. -/
def afterEachOf : CallbackArg → Option Unit
  | .undefined => none
  | .fn => none
  | .obj ae _ => ae

/-- `this.afterAll = callback ? (callback.afterAll || callback) : false`.
For a bare function the fallback is the function itself; for an object with
no `afterAll` member the fallback is the (truthy) object itself. -/
def afterAllOf : CallbackArg → Option Unit
  | .undefined => none
  | .fn => some ()
  | .obj _ _ => some ()

/-- `StyleAnimation.defaultDuration`. -/
def defaultDuration : Rat := 500

/-- `this.duration = duration || StyleAnimation.defaultDuration`: an absent
argument and the falsy number 0 both fall back to the default; any other
number (negative included) is kept. -/
def jsOrDuration : Option Rat → Rat
  | none => defaultDuration
  | some x => if x = 0 then defaultDuration else x

/-- `StyleAnimation.parsePropertyMap(node, properties)`: for each entry of
the property map in order, parse the node's current computed value as start
and the supplied raw value as target with the (always numeric) accessor. -/
def parsePropertyMap (computed : String → String)
    (properties : List (String × String)) : List Snapshot :=
  properties.map (fun p =>
    { name := p.1, start := Numeric.get (computed p.1), target := Numeric.get p.2 })

/-- The body of the `StyleAnimation.Animation` constructor AFTER its element
normalization, applied to a collection of real elements: the field
assignments and the per-element snapshot loop.  `Animation.new` below is the
full constructor: it composes the element normalization (which can also
produce a wrapped non-Element entry) and the fallible computed-style query on
top of this loop. -/
def mkAnimation (elements : List DomNode) (properties : List (String × String))
    (duration : Option Rat) (callback : CallbackArg) (easing : JsV) : AnimState :=
  { elements := elements.map (fun nd =>
      { node := nd.id, properties := parsePropertyMap nd.computed properties })
    count := elements.length
    propertyCount := if elements.isEmpty then 0 else properties.length
    duration := jsOrDuration duration
    easing := resolveEasing easing
    afterEach := afterEachOf callback
    afterAll := afterAllOf callback
    callback := none
    cancel := false
    startTime := 0 }

/-- The `elements` constructor argument: a single DOM element, a plain JS
array of elements (which has a `.length` but no `.item` method), or a
NodeList (which has both). -/
inductive ElementsArg where
  | single : DomNode → ElementsArg
  | arr : List DomNode → ElementsArg
  | nodeList : List DomNode → ElementsArg

/-- One entry of the normalized element collection: a real DOM element, or a
wrapped non-Element (an array, or an empty NodeList, that the normalization
treated as if it were a single element). -/
inductive DomItem where
  | node : DomNode → DomItem
  | collection : List DomNode → DomItem

/-- Write identity of a normalized entry.  A wrapped collection survives
construction only when the property map is empty (otherwise the
computed-style query on it throws), so no style write ever names it; 0
stands in for its identity. -/
def DomItem.idOf : DomItem → Nat
  | .node n => n.id
  | .collection _ => 0

/-- The constructor's element normalization (its try block).  The first
disjunct `!Object.prototype.toString.call(elements) === '[object Array]'`
negates a truthy string and compares `false` with the tag, so it is
constantly false; the wrap is decided by `!(elements.length && elements.item)`
alone.  Anything without both a truthy `.length` and an `.item` method — a
single element, any plain array, an empty NodeList — is wrapped into a
one-entry array holding the argument itself; only a nonempty NodeList passes
through. -/
def normalizeElements : ElementsArg → List DomItem
  | .single n => [DomItem.node n]
  | .arr l => [DomItem.collection l]
  | .nodeList l => if l.isEmpty then [DomItem.collection l] else l.map DomItem.node

/-- `StyleAnimation.getComputedStyle` on a normalized entry: the host query
throws a TypeError (`none`) when the entry is a wrapped non-Element. -/
def DomItem.computedOf : DomItem → String → Option String
  | .node n, name => some (n.computed name)
  | .collection _, _ => none

/-- `StyleAnimation.parsePropertyMap` run against one normalized entry; the
computed-style query throws on a wrapped collection as soon as there is at
least one property to resolve. -/
def parsePropertyMapOf (item : DomItem) (properties : List (String × String)) :
    Option (List Snapshot) :=
  properties.mapM (fun p => do
    let raw ← item.computedOf p.1
    pure { name := p.1, start := Numeric.get raw, target := Numeric.get p.2 })

/-- The full `StyleAnimation.Animation` constructor: element normalization,
then the field assignments and the per-element snapshot loop; `none` is a
TypeError thrown out of the constructor by the computed-style query. -/
def Animation.new (elements : ElementsArg) (properties : List (String × String))
    (duration : Option Rat) (callback : CallbackArg) (easing : JsV) :
    Option AnimState := do
  let items := normalizeElements elements
  let els ← items.mapM (fun it => do
    let props ← parsePropertyMapOf it properties
    pure { node := it.idOf, properties := props })
  pure { elements := els
         count := items.length
         propertyCount := if items.isEmpty then 0 else properties.length
         duration := jsOrDuration duration
         easing := resolveEasing easing
         afterEach := afterEachOf callback
         afterAll := afterAllOf callback
         callback := none
         cancel := false
         startTime := 0 }

/-- `Animation.prototype.stop`: sets the cancel flag. -/
def Animation.stop (s : AnimState) : AnimState :=
  { s with cancel := true }

/-- `Animation.prototype.start`: clears the cancel flag, records the start
timestamp and schedules the first frame. -/
def Animation.start (s : AnimState) (t : Rat) : AnimState :=
  { s with cancel := false, startTime := t }

/-- `progress = (now - this.startTime) / this.duration`. -/
def progressOf (s : AnimState) (now : Rat) : Rat :=
  (now - s.startTime) / s.duration

/-- Calling a JavaScript value: a TypeError (`none`) unless it is callable. -/
def jsCall (v : JsV) (x : Rat) : Option Rat :=
  match v with
  | .fn f => some (f x)
  | _ => none

/-- The slice of an array visited by a loop bounded by a stored count; an
out-of-range index would dereference `undefined`, a TypeError. -/
def loopSlice (l : List α) (n : Nat) : Option (List α) :=
  if n ≤ l.length then some (l.take n) else none

/-- One iteration of the running branch's inner loop:
`updated = accessor.update(start, target, easing(progress));
 accessor.set(node, name, start, updated)`.  A non-callable easing or a null
snapshot raises a TypeError. -/
def runningWrite (easing : JsV) (progress : Rat) (node : Nat) (p : Snapshot) :
    Option StyleWrite := do
  let eased ← jsCall easing progress
  let st ← p.start
  let tg ← p.target
  pure ⟨node, p.name, Numeric.setStr st (Numeric.update st tg eased)⟩

/-- One iteration of the terminal branch's inner loop:
`accessor.set(node, name, start, target)` — the exact target committed. -/
def terminalWrite (node : Nat) (p : Snapshot) : Option StyleWrite := do
  let st ← p.start
  let tg ← p.target
  pure ⟨node, p.name, Numeric.setStr st tg⟩

/-- `Animation.prototype.animate`: nothing if cancelled; otherwise compute
progress and either interpolate every property and reschedule (progress < 1)
or commit every target, set the cancel flag inside the inner loop and run
`this.callback && this.callback()` once per iteration. -/
def animate (s : AnimState) (now : Rat) : Option (AnimState × FrameEffects) :=
  if s.cancel then
    some (s, noEffects)
  else if progressOf s now < 1 then do
    let els ← loopSlice s.elements s.count
    let wss ← els.mapM (fun e => do
      let props ← loopSlice e.properties s.propertyCount
      props.mapM (runningWrite s.easing (progressOf s now) e.node))
    some (s, ⟨wss.flatten, true, 0⟩)
  else do
    let els ← loopSlice s.elements s.count
    let wss ← els.mapM (fun e => do
      let props ← loopSlice e.properties s.propertyCount
      props.mapM (terminalWrite e.node))
    some ({ s with cancel := if 0 < wss.flatten.length then true else s.cancel },
      ⟨wss.flatten, false, if s.callback.isSome then wss.flatten.length else 0⟩)

/-- The operations an Animation's state is subject to after construction:
`start()`, `stop()`, and a scheduled frame firing at some timestamp. -/
inductive AnimOp where
  | start : Rat → AnimOp
  | stop : AnimOp
  | frame : Rat → AnimOp
deriving DecidableEq

/-- Whether an operation is a `start()` invocation. -/
def AnimOp.isStart : AnimOp → Bool
  | .start _ => true
  | _ => false

/-- Apply one operation to the state (a frame that raises is `none`). -/
def applyOp (s : AnimState) : AnimOp → Option AnimState
  | .start t => some (Animation.start s t)
  | .stop => some (Animation.stop s)
  | .frame t => (animate s t).map Prod.fst

/-- Run a sequence of operations from a state. -/
def runOps : AnimState → List AnimOp → Option AnimState
  | s, [] => some s
  | s, op :: ops =>
    match applyOp s op with
    | none => none
    | some s2 => runOps s2 ops

/-! ## Concrete animations used by counterexamples and witnesses -/

/-- One element whose computed width is "100px", animating width to "300px"
over 100 ms with an `afterAll` callback, started at t = 0. -/
def exOneElement : AnimState :=
  Animation.start
    (mkAnimation [⟨0, fun _ => "100px"⟩] [("width", "300px")] (some 100)
      CallbackArg.fn JsV.undefined) 0

/-- Same animation but constructed with duration 0 and no callback. -/
def exZeroDuration : AnimState :=
  Animation.start
    (mkAnimation [⟨0, fun _ => "100px"⟩] [("width", "300px")] (some 0)
      CallbackArg.undefined JsV.undefined) 0

/-- Same animation but constructed with a function as the easing argument. -/
def exFnEasing : AnimState :=
  Animation.start
    (mkAnimation [⟨0, fun _ => "100px"⟩] [("width", "300px")] (some 100)
      CallbackArg.undefined (JsV.fn (fun x => x * x))) 0

/-- The state the full constructor builds from an empty NodeList and an empty
property map: the normalization wraps the empty collection as a single
pseudo-element, so one element with zero snapshots. -/
def emptyNodeListAnim (dur : Option Rat) (cb : CallbackArg) (ez : JsV) : AnimState :=
  { elements := [{ node := 0, properties := [] }]
    count := 1
    propertyCount := 0
    duration := jsOrDuration dur
    easing := resolveEasing ez
    afterEach := afterEachOf cb
    afterAll := afterAllOf cb
    callback := none
    cancel := false
    startTime := 0 }

/-- A bare zero-element, zero-property animation. -/
def exBare : AnimState :=
  mkAnimation [] [] none CallbackArg.undefined JsV.undefined

/-- A negative-duration animation, started at t = 0. -/
def exNegDuration : AnimState :=
  Animation.start (mkAnimation [] [] (some (-100)) CallbackArg.undefined JsV.undefined) 0

/-- `exBare` after `start(); stop()`. -/
def exStopped : AnimState :=
  Animation.stop (Animation.start exBare 0)

/-! ## Theorems -/

/-- Every ToUint32 result is below 2^32. -/
theorem toUint32_lt (x : Option Rat) : toUint32 x < 2 ^ 32 := by
  cases x with
  | none => norm_num [toUint32]
  | some q =>
    have h1 : (0 : Int) ≤ jsTrunc q % (2 ^ 32 : Int) :=
      Int.emod_nonneg _ (by norm_num)
    have h2 : jsTrunc q % (2 ^ 32 : Int) < (2 ^ 32 : Int) :=
      Int.emod_lt_of_pos _ (by norm_num)
    show (jsTrunc q % (2 ^ 32 : Int)).toNat < 2 ^ 32
    omega

/-- C2: the numeric accessor's parse on the spec's three sample inputs.  The
"10" and "abc" cases behave as claimed, but "12.5px" parses to value 12, not
12.5: the captured substring is coerced with the integer-truncating `>>> 0`.
This is the defect the spec itself flags in its section 4.1. -/
theorem get_truncates_fractional_value :
    Numeric.get "12.5px" = some { value := 12, unit := some "px" } ∧
    Numeric.get "10" = some { value := 10, unit := none } ∧
    Numeric.get "abc" = none := by
  refine ⟨?_, ?_, ?_⟩ <;> with_unfolding_all rfl

/-- C7: `update` at progress 0 returns exactly the start value and at
progress 1 exactly the target value; the formula reduces algebraically to
the endpoints. -/
theorem update_endpoints (start target : PropValue) :
    (Numeric.update start target 0).value = start.value ∧
    (Numeric.update start target 1).value = target.value := by
  constructor
  · show start.value + (target.value - start.value) * 0 = start.value
    ring
  · show start.value + (target.value - start.value) * 1 = target.value
    ring

/-- C9: `set` writes `current.value` followed by `start.unit` (empty string
when start has no unit) as the property's new raw value on the element, and
touches no other property. -/
theorem set_writes_value_with_start_unit (node : DomElem) (name : String)
    (start current : PropValue) :
    (Numeric.set node name start current).style name
        = jsNumStr current.value ++ (start.unit.getD "") ∧
    ∀ n, n ≠ name → (Numeric.set node name start current).style n = node.style n := by
  constructor
  · simp [Numeric.set, Numeric.setStr]
  · intro n hn
    simp [Numeric.set, hn]

/-- Witness for C9 at a concrete element, property and value pair. -/
theorem set_writes_value_with_start_unit_witness :
    (Numeric.set ⟨fun _ => ""⟩ "width" ⟨100, some "px"⟩ ⟨150, some "px"⟩).style "width"
        = jsNumStr 150 ++ "px" ∧
    (Numeric.set ⟨fun _ => ""⟩ "width" ⟨100, some "px"⟩ ⟨150, some "px"⟩).style "margin"
        = "" :=
  ⟨(set_writes_value_with_start_unit ⟨fun _ => ""⟩ "width" ⟨100, some "px"⟩
      ⟨150, some "px"⟩).1,
   (set_writes_value_with_start_unit ⟨fun _ => ""⟩ "width" ⟨100, some "px"⟩
      ⟨150, some "px"⟩).2 "margin" (by decide)⟩

/-- C10: whenever `get` succeeds, the value field is a natural number below
2^32 (the `>>> 0` coercion truncates and wraps into unsigned 32-bit range). -/
theorem get_value_uint32 (raw : String) (pv : PropValue)
    (h : Numeric.get raw = some pv) :
    ∃ k : Nat, pv.value = (k : Rat) ∧ k < 2 ^ 32 := by
  unfold Numeric.get at h
  rcases Option.map_eq_some'.mp h with ⟨m, hm, hpv⟩
  subst hpv
  exact ⟨toUint32 (jsToNumber m.1), rfl, toUint32_lt _⟩

/-- Witness for C10 at the claim's own example: a leading "-5" wraps to
4294967291. -/
theorem get_value_uint32_witness :
    ∃ k : Nat, (PropValue.mk (4294967291 : Rat) (some "px")).value = (k : Rat) ∧
      k < 2 ^ 32 :=
  get_value_uint32 "-5px" ⟨4294967291, some "px"⟩ (by with_unfolding_all rfl)

/-- A frame on a cancelled animation leaves the state untouched and has no
effects. -/
theorem animate_cancelled (s : AnimState) (now : Rat) (h : s.cancel = true) :
    animate s now = some (s, noEffects) := by
  unfold animate
  simp [h]

/-- A terminal frame on a one-element animation with no property snapshots
(and no assigned callback slot) applies nothing, schedules nothing, fires
nothing, and leaves the state unchanged. -/
theorem animate_one_element_no_props (e : ElementB) (s : AnimState) (now : Rat)
    (he : e.properties = []) (helems : s.elements = [e]) (hcount : s.count = 1)
    (hpc : s.propertyCount = 0) (hcancel : s.cancel = false)
    (hcb : s.callback = none) (hlt : ¬ progressOf s now < 1) :
    animate s now = some (s, ⟨[], false, 0⟩) := by
  obtain ⟨nid, props⟩ := e
  obtain ⟨elems, count, pc, dur, ez, ae, aa, cbk, canc, st⟩ := s
  simp only at he helems hcount hpc hcancel hcb
  subst he
  subst helems
  subst hcount
  subst hpc
  subst hcancel
  subst hcb
  simp [animate, hlt, loopSlice, List.mapM, List.mapM.loop, terminalWrite, ite_self]

/-- C3: the easing resolution evaluated on the failing input.  A function
argument makes `easing && (isFunction || dynamics[easing])` return the
boolean `true` (the `&&` yields its right operand, here the `===`
comparison's result), so `this.easing` is `true` rather than the function,
and the first frame's `this.easing(progress)` call raises a TypeError.  An
unregistered string name does fall back to the linear identity as claimed. -/
theorem easing_function_resolves_to_true :
    resolveEasing (JsV.fn (fun x => x * x)) = JsV.bool true ∧
    resolveEasing (JsV.str "bounce") = JsV.fn linearFn ∧
    animate exFnEasing 10 = none := by
  refine ⟨rfl, rfl, ?_⟩
  with_unfolding_all rfl

/-- C1: a one-element, one-property animation with an `afterAll` callback,
run to completion (progress 3/2 at the frame).  The terminal branch commits
the target (one write), sets the cancel flag and schedules nothing, but the
callback fires zero times: the branch reads `this.callback`, a slot the
constructor never assigns — it stored the callback in `this.afterAll`. -/
theorem afterAll_never_fires_on_completion :
    exOneElement.afterAll = some () ∧
    (animate exOneElement 150).map
        (fun r => (r.2.callbackCalls, r.2.rescheduled, r.2.writes.length, r.1.cancel))
      = some (0, false, 1, true) := by
  refine ⟨rfl, ?_⟩
  with_unfolding_all rfl

/-- C4 counterexample: constructing with duration 0 does not make the first
progress check satisfy progress ≥ 1.  The falsy 0 falls back to the 500 ms
default, so a first frame 10 ms in sees progress 1/50 < 1 and the animation
interpolates and reschedules normally. -/
theorem zero_duration_not_instant :
    exZeroDuration.duration = 500 ∧
    progressOf exZeroDuration 10 < 1 ∧
    (animate exZeroDuration 10).map (fun r => r.2.rescheduled) = some true := by
  refine ⟨by with_unfolding_all rfl, by with_unfolding_all decide, ?_⟩
  with_unfolding_all rfl

/-- C4 amended: no error is raised for zero or negative duration, but there
is no instant jump either: a zero duration is replaced by the 500 ms default,
and a negative duration makes progress nonpositive at every instant from
start time onward, so the progress ≥ 1 branch is never taken. -/
theorem zero_negative_duration_defined (es : List DomNode)
    (ps : List (String × String)) (cb : CallbackArg) (ez : JsV) :
    (mkAnimation es ps (some 0) cb ez).duration = 500 ∧
    ∀ s : AnimState, s.duration < 0 → ∀ now, s.startTime ≤ now →
      progressOf s now < 1 := by
  constructor
  · with_unfolding_all rfl
  · intro s hd now hnow
    have hnum : 0 ≤ now - s.startTime := by linarith
    have hle : (now - s.startTime) / s.duration ≤ 0 :=
      div_nonpos_of_nonneg_of_nonpos hnum hd.le
    unfold progressOf
    linarith

/-- Witness for the amended C4: the zero-duration default on a concrete
construction, and a concrete negative-duration animation whose progress is
still below 1 long after its |duration| has elapsed. -/
theorem zero_negative_duration_defined_witness :
    (mkAnimation [] [] (some 0) CallbackArg.undefined JsV.undefined).duration = 500 ∧
    progressOf exNegDuration 700 < 1 :=
  ⟨(zero_negative_duration_defined [] [] CallbackArg.undefined JsV.undefined).1,
   (zero_negative_duration_defined [] [] CallbackArg.undefined JsV.undefined).2
     exNegDuration (by with_unfolding_all decide) 700 (by with_unfolding_all decide)⟩

/-- C5 counterexample: the cancelled flag does revert.  After
`start(); stop()` the flag is true, but a further `start()` — an operation
the claim's quantification includes — unconditionally resets it to false. -/
theorem cancel_reverts_on_restart :
    (runOps exBare [AnimOp.start 0, AnimOp.stop]).map AnimState.cancel
      = some true ∧
    (runOps exBare [AnimOp.start 0, AnimOp.stop, AnimOp.start 5]).map AnimState.cancel
      = some false := by
  exact ⟨rfl, rfl⟩

/-- C5 amended: over every sequence of `stop()` calls and scheduled frames —
that is, excluding re-invocations of `start()`, whose post-completion use the
source documents as unsupported — the cancelled flag is monotone: once true
it never reverts. -/
theorem cancel_monotone_without_restart (ops : List AnimOp) :
    ∀ s s2 : AnimState, (∀ op ∈ ops, op.isStart = false) →
      runOps s ops = some s2 → s.cancel = true → s2.cancel = true := by
  induction ops with
  | nil =>
    intro s s2 _ hrun hc
    injection hrun with h
    exact h ▸ hc
  | cons op rest ih =>
    intro s s2 hns hrun hc
    cases op with
    | start t =>
      have := hns (AnimOp.start t) (List.mem_cons_self _ _)
      simp [AnimOp.isStart] at this
    | stop =>
      have hrun2 : runOps (Animation.stop s) rest = some s2 := hrun
      exact ih (Animation.stop s) s2
        (fun o ho => hns o (List.mem_cons_of_mem _ ho)) hrun2 rfl
    | frame t =>
      have hrun2 : runOps s rest = some s2 := by
        rw [runOps, applyOp, animate_cancelled s t hc] at hrun
        exact hrun
      exact ih s s2 (fun o ho => hns o (List.mem_cons_of_mem _ ho)) hrun2 hc

/-- Witness for the amended C5: a concrete stopped animation stays cancelled
through a further `stop()` and a scheduled frame. -/
theorem cancel_monotone_without_restart_witness : exStopped.cancel = true :=
  cancel_monotone_without_restart [AnimOp.stop, AnimOp.frame 3] exStopped exStopped
    (by decide) (by with_unfolding_all rfl) rfl

/-- C6 counterexample: constructing with an empty element collection is not
legal-and-no-op as claimed.  The normalization wraps the empty NodeList (and
any plain array) as a single pseudo-element, and with a nonempty property map
the constructor then throws a TypeError when it queries the computed style of
the wrapped non-Element. -/
theorem empty_elements_construction_throws :
    normalizeElements (ElementsArg.nodeList []) = [DomItem.collection []] ∧
    Animation.new (ElementsArg.nodeList []) [("width", "300px")] (some 100)
      CallbackArg.fn JsV.undefined = none ∧
    Animation.new (ElementsArg.arr []) [("width", "300px")] (some 100)
      CallbackArg.fn JsV.undefined = none := by
  exact ⟨rfl, rfl, rfl⟩

/-- C6 amended: constructing with an empty element collection never yields a
zero-element animation — normalization leaves at least one entry, wrapping
the collection itself as a single pseudo-element (count = 1).  With a
nonempty property map, construction throws a TypeError out of the
computed-style query on the non-Element; with an empty property map it
succeeds and yields a no-op animation whose terminal frame applies nothing,
schedules nothing, and fires no completion callback. -/
theorem empty_elements_wrap_behavior :
    (∀ arg : ElementsArg, 1 ≤ (normalizeElements arg).length) ∧
    (∀ (ps : List (String × String)) (dur : Option Rat) (cb : CallbackArg) (ez : JsV),
      ps ≠ [] → Animation.new (ElementsArg.nodeList []) ps dur cb ez = none) ∧
    (∀ (dur : Option Rat) (cb : CallbackArg) (ez : JsV),
      Animation.new (ElementsArg.nodeList []) [] dur cb ez
        = some (emptyNodeListAnim dur cb ez) ∧
      (emptyNodeListAnim dur cb ez).count = 1 ∧
      ∀ t0 now, 1 ≤ progressOf (Animation.start (emptyNodeListAnim dur cb ez) t0) now →
        animate (Animation.start (emptyNodeListAnim dur cb ez) t0) now
          = some (Animation.start (emptyNodeListAnim dur cb ez) t0, ⟨[], false, 0⟩)) := by
  refine ⟨?_, ?_, ?_⟩
  · intro arg
    cases arg with
    | single n => simp [normalizeElements]
    | arr l => simp [normalizeElements]
    | nodeList l =>
      cases l with
      | nil => simp [normalizeElements]
      | cons a t => simp [normalizeElements]
  · intro ps dur cb ez hps
    cases ps with
    | nil => exact absurd rfl hps
    | cons p rest => rfl
  · intro dur cb ez
    refine ⟨rfl, rfl, ?_⟩
    intro t0 now h
    exact animate_one_element_no_props ⟨0, []⟩
      (Animation.start (emptyNodeListAnim dur cb ez) t0) now
      rfl rfl rfl rfl rfl rfl (not_lt.mpr h)

/-- Witness for the amended C6: a concrete empty-NodeList construction with a
property map throws, and without one the completed frame is a silent no-op. -/
theorem empty_elements_wrap_behavior_witness :
    Animation.new (ElementsArg.nodeList []) [("height", "50px")] (some 100)
        CallbackArg.undefined JsV.undefined = none ∧
    animate (Animation.start (emptyNodeListAnim (some 100) CallbackArg.fn
        JsV.undefined) 0) 500
      = some (Animation.start (emptyNodeListAnim (some 100) CallbackArg.fn
          JsV.undefined) 0, ⟨[], false, 0⟩) :=
  ⟨empty_elements_wrap_behavior.2.1 [("height", "50px")] (some 100)
      CallbackArg.undefined JsV.undefined (by simp),
   (empty_elements_wrap_behavior.2.2 (some 100) CallbackArg.fn JsV.undefined).2.2
      0 500 (by with_unfolding_all decide)⟩

/-- C8: once `stop()` has set the cancel flag, the next scheduled frame
performs no further work: no property is written (values stay at whatever
was last applied, never snapped to target), no further frame is scheduled,
the completion callback does not fire, and the state is unchanged. -/
theorem stop_freezes_next_frame (s : AnimState) (now : Rat) :
    animate (Animation.stop s) now = some (Animation.stop s, noEffects) :=
  animate_cancelled (Animation.stop s) now rfl

end StyleAnimation
